import Mathlib

/-!
Shallow embedding of the ICMP path-tracing engine (`src/icmp/tracer.rs`).

Machine integers are modelled as `Nat` (u8 ttl, u16 sequence, usize round)
with explicit wrap handling where the source has it; `SystemTime` is an `Int`
timestamp and `Duration` a `Nat`, with `duration_since(..).unwrap_or_default()`
modelled by `Int.toNat` of the difference (a clock regression yields zero).
The probe ring buffer is a function `Nat → Probe` keyed by `sequence % 256`.
-/

/-- Probe status. Modelled from the spec: `probe.rs` is not among the sources;
the variants are given in spec section 3 and pinned by the state test inside
`tracer.rs`. -/
inductive ProbeStatus
  | NotSent
  | Awaited
  | Complete
deriving DecidableEq, Repr

/-- ICMP packet type recorded on a completed probe. Modelled from the spec:
`probe.rs` is not among the sources; variants per spec section 3. -/
inductive IcmpPacketType
  | TimeExceeded
  | Unreachable
  | EchoReply
deriving DecidableEq, Repr

/-- One outgoing ICMP Echo Request and its correlated response. Modelled from
the spec: `probe.rs` is not among the sources; fields per spec section 3 and
the state test inside `tracer.rs`. The responder address is abstracted to a
`Nat`. -/
structure Probe where
  sequence : Nat
  ttl : Nat
  round : Nat
  sent : Option Int
  received : Option Int
  host : Option Nat
  status : ProbeStatus
  icmp_packet_type : Option IcmpPacketType
deriving DecidableEq, Repr

/-- The default probe (`Probe::default()`), as pinned by the state test:
sequence 0, ttl 0, round 0, nothing sent or received, status `NotSent`. -/
def Probe.default : Probe :=
  ⟨0, 0, 0, none, none, none, .NotSent, none⟩

/-- Embedding of `Probe::new(sequence, ttl, round, sent)`: a freshly sent probe with status
`Awaited`, as pinned by the state test inside `tracer.rs`. -/
def Probe.new (sequence ttl round : Nat) (sent : Int) : Probe :=
  ⟨sequence, ttl, round, some sent, none, none, .Awaited, none⟩

/-- Embedding of `Probe::with_status`. -/
def Probe.with_status (p : Probe) (s : ProbeStatus) : Probe :=
  { p with status := s }

/-- Embedding of `Probe::with_icmp_packet_type`. -/
def Probe.with_icmp_packet_type (p : Probe) (t : IcmpPacketType) : Probe :=
  { p with icmp_packet_type := some t }

/-- Embedding of `Probe::with_host`. -/
def Probe.with_host (p : Probe) (h : Nat) : Probe :=
  { p with host := some h }

/-- Embedding of `Probe::with_received`. -/
def Probe.with_received (p : Probe) (t : Int) : Probe :=
  { p with received := some t }

/-- Constant `BUFFER_SIZE` from `tracer.rs`. -/
def BUFFER_SIZE : Nat := 256

/-- Constant `MIN_SEQUENCE` from `tracer.rs`. -/
def MIN_SEQUENCE : Nat := 33000

/-- Constant `MAX_SEQUENCE` from `tracer.rs` (`u16::MAX`). -/
def MAX_SEQUENCE : Nat := 65535

/-- Mutable state of the tracing algorithm (`TracerState` in `tracer.rs`).
The circular buffer is a total function read and written at `sequence % 256`. -/
structure TracerState where
  buffer : Nat → Probe
  sequence : Nat
  round_sequence : Nat
  ttl : Nat
  round : Nat
  round_start : Int
  target_found : Bool
  max_received_ttl : Option Nat
  target_ttl : Option Nat
  target_seq : Option Nat
  received_time : Option Int

/-- Embedding of `TracerState::new(first_ttl)`; the round-start timestamp is passed in. -/
def TracerState.new (first_ttl : Nat) (now : Int) : TracerState :=
  { buffer := fun _ => Probe.default
    sequence := MIN_SEQUENCE
    round_sequence := MIN_SEQUENCE
    ttl := first_ttl
    round := 0
    round_start := now
    target_found := false
    max_received_ttl := none
    target_ttl := none
    target_seq := none
    received_time := none }

/-- Embedding of `TracerState::probe_at(sequence)`. -/
def TracerState.probe_at (st : TracerState) (sequence : Nat) : Probe :=
  st.buffer (sequence % BUFFER_SIZE)

/-- Embedding of `TracerState::in_round(sequence)`: `sequence >= self.round_sequence`. -/
def TracerState.in_round (st : TracerState) (sequence : Nat) : Bool :=
  decide (st.round_sequence ≤ sequence)

/-- Embedding of `TracerState::next_probe()`; the send timestamp is passed in. -/
def TracerState.next_probe (st : TracerState) (now : Int) : Probe × TracerState :=
  let probe := Probe.new st.sequence st.ttl st.round now
  (probe,
    { st with
      buffer := Function.update st.buffer (st.sequence % BUFFER_SIZE) probe
      ttl := st.ttl + 1
      sequence := if st.sequence = MAX_SEQUENCE then MIN_SEQUENCE else st.sequence + 1 })

/-- Embedding of `TracerState::update_probe(sequence, probe, received_time, found)`. -/
def TracerState.update_probe (st : TracerState) (sequence : Nat) (probe : Probe)
    (received_time : Int) (found : Bool) : TracerState :=
  let st1 :=
    match st.target_ttl, st.target_seq with
    | none, _ =>
      if found then { st with target_ttl := some probe.ttl, target_seq := some sequence }
      else st
    | some _, some target_seq =>
      if found && decide (sequence < target_seq) then
        { st with target_ttl := some probe.ttl, target_seq := some sequence }
      else st
    | some _, none => st
  { st1 with
    buffer := Function.update st1.buffer (sequence % BUFFER_SIZE) probe
    max_received_ttl :=
      some (match st1.max_received_ttl with
            | some m => max m probe.ttl
            | none => probe.ttl)
    received_time := some received_time
    target_found := st1.target_found || found }

/-- Embedding of `TracerState::advance_round(first_ttl)`; the new round-start timestamp is
passed in. -/
def TracerState.advance_round (st : TracerState) (first_ttl : Nat) (now : Int) : TracerState :=
  { st with
    target_found := false
    round_sequence := st.sequence
    received_time := none
    round_start := now
    max_received_ttl := none
    round := st.round + 1
    ttl := first_ttl
    target_seq := none }

/-- The first `n` probes yielded by `TracerState::probes()`, i.e. the buffer
cycled starting from index `round_sequence % BUFFER_SIZE`. -/
def TracerState.probes_take (st : TracerState) (n : Nat) : List Probe :=
  (List.range n).map fun k => st.buffer ((st.round_sequence % BUFFER_SIZE + k) % BUFFER_SIZE)

/-- Embedding of `IcmpTracerConfig`: the configuration fields the tracer reads. -/
structure IcmpTracerConfig where
  target_addr : Nat
  trace_identifier : Nat
  first_ttl : Nat
  max_ttl : Nat
  grace_duration : Nat
  max_inflight : Nat
  read_timeout : Nat
  min_round_duration : Nat
  max_round_duration : Nat
  packet_size : Nat
  payload_pattern : Nat

/-- Payload of an `IcmpResponse` variant. -/
structure ResponseData where
  sequence : Nat
  identifier : Nat
  addr : Nat
  recv : Int
deriving DecidableEq, Repr

/-- The incoming ICMP response variants. -/
inductive IcmpResponse
  | TimeExceeded (data : ResponseData)
  | DestinationUnreachable (data : ResponseData)
  | EchoReply (data : ResponseData)
deriving DecidableEq, Repr

/-- The payload carried by any `IcmpResponse` variant. -/
def IcmpResponse.data : IcmpResponse → ResponseData
  | .TimeExceeded d => d
  | .DestinationUnreachable d => d
  | .EchoReply d => d

/-- Embedding of `end.duration_since(start).unwrap_or_default()`: the elapsed duration, with
a clock regression collapsing to zero. -/
def durationSince (endTime startTime : Int) : Nat :=
  (endTime - startTime).toNat

/-- Embedding of `exceeds(start, end, dur)` from `tracer.rs`. -/
def exceeds (start : Option Int) (endTime : Int) (dur : Nat) : Bool :=
  match start with
  | some s => decide (durationSince endTime s > dur)
  | none => false

/-- Embedding of `IcmpTracer::send_request`: returns the probe handed to the channel (if
any) together with the state after the call. -/
def send_request (cfg : IcmpTracerConfig) (st : TracerState) (now : Int) :
    Option Probe × TracerState :=
  let can_send_ttl :=
    match st.target_ttl with
    | some target_ttl => decide (st.ttl ≤ target_ttl)
    | none => decide (st.ttl - st.max_received_ttl.getD 0 < cfg.max_inflight)
  if !st.target_found && decide (st.ttl ≤ cfg.max_ttl) && can_send_ttl then
    ((st.next_probe now).1, (st.next_probe now).2)
  else
    (none, st)

/-- Embedding of `IcmpTracer::recv_response` applied to the value returned by
`channel.receive`. -/
def recv_response (cfg : IcmpTracerConfig) (st : TracerState)
    (resp : Option IcmpResponse) : TracerState :=
  match resp with
  | some (.TimeExceeded data) =>
    if decide (cfg.trace_identifier = data.identifier) && st.in_round data.sequence then
      let probe :=
        ((((st.probe_at data.sequence).with_status .Complete).with_icmp_packet_type
          .TimeExceeded).with_host data.addr).with_received data.recv
      st.update_probe data.sequence probe data.recv false
    else st
  | some (.DestinationUnreachable data) =>
    if decide (cfg.trace_identifier = data.identifier) && st.in_round data.sequence then
      let probe :=
        ((((st.probe_at data.sequence).with_status .Complete).with_icmp_packet_type
          .Unreachable).with_host data.addr).with_received data.recv
      st.update_probe data.sequence probe data.recv false
    else st
  | some (.EchoReply data) =>
    if decide (cfg.trace_identifier = data.identifier) && st.in_round data.sequence then
      let probe :=
        ((((st.probe_at data.sequence).with_status .Complete).with_icmp_packet_type
          .EchoReply).with_host data.addr).with_received data.recv
      st.update_probe data.sequence probe data.recv true
    else st
  | none => st

/-- The round size computed inside `IcmpTracer::publish_trace`.  Subtractions
are `Nat`-truncated (`saturating_sub` in the source for the
`max_received_ttl` case). -/
def round_size (cfg : IcmpTracerConfig) (st : TracerState) : Nat :=
  match st.target_ttl with
  | some target_ttl => target_ttl - cfg.first_ttl + 1
  | none =>
    match st.max_received_ttl with
    | some max_received_ttl =>
      min (max_received_ttl - cfg.first_ttl + 1) (cfg.max_ttl - cfg.first_ttl) + 1
    | none => 0

/-- Embedding of `IcmpTracer::publish_trace`: the list of probes handed to the publisher
for the completed round. -/
def publish_trace (cfg : IcmpTracerConfig) (st : TracerState) : List Probe :=
  st.probes_take (round_size cfg st)

/-- The round-completion condition tested by `IcmpTracer::update_round`. -/
def roundComplete (cfg : IcmpTracerConfig) (st : TracerState) (now : Int) : Bool :=
  decide (durationSince now st.round_start > cfg.min_round_duration)
    && exceeds st.received_time now cfg.grace_duration
    && st.target_found
  || decide (durationSince now st.round_start > cfg.max_round_duration)

/-- Embedding of `IcmpTracer::update_round`: if the round is complete, publish the round's
probes and advance; the completion-check and round-advance timestamps are
passed in. -/
def update_round (cfg : IcmpTracerConfig) (st : TracerState) (now advTime : Int) :
    List Probe × TracerState :=
  if roundComplete cfg st now then
    (publish_trace cfg st, st.advance_round cfg.first_ttl advTime)
  else
    ([], st)

/-- External inputs consumed by one iteration of the `trace` loop: the send
timestamp, the channel's answer, and the round-check and round-advance
timestamps. -/
structure LoopInput where
  send_time : Int
  response : Option IcmpResponse
  check_time : Int
  advance_time : Int

/-- One iteration of the `trace` loop: `send_request`, `recv_response`,
`update_round`. -/
def loop_step (cfg : IcmpTracerConfig) (st : TracerState) (inp : LoopInput) :
    List Probe × TracerState :=
  update_round cfg
    (recv_response cfg (send_request cfg st inp.send_time).2 inp.response)
    inp.check_time inp.advance_time

/-- Run the `trace` loop over a list of iteration inputs, returning the final
state. -/
def run_loop (cfg : IcmpTracerConfig) (st : TracerState) (inps : List LoopInput) :
    TracerState :=
  inps.foldl (fun s inp => (loop_step cfg s inp).2) st

/-- C2 counterexample: in the fresh state both `round_sequence` and `sequence`
are 33000, so the claimed half-open range `round_sequence ≤ s < sequence` is
empty at `s = 33000`, yet `in_round 33000` returns `true`: the claimed iff is
false. -/
theorem C2_counterexample :
    (TracerState.new 1 0).in_round 33000 = true ∧
      ¬ (33000 < (TracerState.new 1 0).sequence) := by
  decide

/-- C2 (amended): `in_round s` is true iff `round_sequence ≤ s` under plain
integer comparison; there is no upper bound at the cursor `sequence` and no
wrap-aware ordering, so any `s` at or beyond the cursor is also accepted. -/
theorem C2_in_round_lower_bound_only (st : TracerState) (s : Nat) :
    st.in_round s = true ↔ st.round_sequence ≤ s := by
  simp [TracerState.in_round]

/-- C6: `next_probe` returns a probe carrying the pre-call sequence, ttl and
round with status `Awaited` and `sent = some now`, stores it at index
`sequence % 256`, increments `ttl` by 1, advances `sequence` by 1 with 65535
wrapping to 33000, and leaves every other field unchanged. -/
theorem C6_next_probe (st : TracerState) (now : Int) :
    (st.next_probe now).1 =
      { sequence := st.sequence, ttl := st.ttl, round := st.round, sent := some now,
        received := none, host := none, status := .Awaited, icmp_packet_type := none } ∧
    (st.next_probe now).2.buffer =
      Function.update st.buffer (st.sequence % 256) (st.next_probe now).1 ∧
    (st.next_probe now).2.ttl = st.ttl + 1 ∧
    (st.next_probe now).2.sequence =
      (if st.sequence = 65535 then 33000 else st.sequence + 1) ∧
    (st.next_probe now).2.round = st.round ∧
    (st.next_probe now).2.round_sequence = st.round_sequence ∧
    (st.next_probe now).2.target_found = st.target_found ∧
    (st.next_probe now).2.target_ttl = st.target_ttl ∧
    (st.next_probe now).2.target_seq = st.target_seq ∧
    (st.next_probe now).2.max_received_ttl = st.max_received_ttl ∧
    (st.next_probe now).2.received_time = st.received_time := by
  refine ⟨rfl, rfl, rfl, rfl, rfl, rfl, rfl, rfl, rfl, rfl, rfl⟩

/-- C9: two successive `advance_round` calls with no intervening `next_probe`
leave `round_sequence = sequence`, reset `ttl` to `first_ttl`, clear
`target_found`, `max_received_ttl`, `received_time` and `target_seq`,
increment `round` by exactly 2, keep `sequence` unchanged and preserve
`target_ttl`. -/
theorem C9_advance_round_twice (st : TracerState) (first_ttl : Nat) (t1 t2 : Int) :
    ((st.advance_round first_ttl t1).advance_round first_ttl t2).round_sequence =
      ((st.advance_round first_ttl t1).advance_round first_ttl t2).sequence ∧
    ((st.advance_round first_ttl t1).advance_round first_ttl t2).sequence = st.sequence ∧
    ((st.advance_round first_ttl t1).advance_round first_ttl t2).ttl = first_ttl ∧
    ((st.advance_round first_ttl t1).advance_round first_ttl t2).target_found = false ∧
    ((st.advance_round first_ttl t1).advance_round first_ttl t2).max_received_ttl = none ∧
    ((st.advance_round first_ttl t1).advance_round first_ttl t2).received_time = none ∧
    ((st.advance_round first_ttl t1).advance_round first_ttl t2).target_seq = none ∧
    ((st.advance_round first_ttl t1).advance_round first_ttl t2).round = st.round + 2 ∧
    ((st.advance_round first_ttl t1).advance_round first_ttl t2).target_ttl = st.target_ttl := by
  refine ⟨rfl, rfl, rfl, rfl, rfl, rfl, rfl, rfl, rfl⟩

/-- C5: the number of probes handed to the publisher at round completion is
`target_ttl − first_ttl + 1` when `target_ttl = some t`, otherwise
`min (max_received_ttl − first_ttl + 1) (max_ttl − first_ttl) + 1` when
`max_received_ttl = some m`, and otherwise 0 (no probe is published). -/
theorem C5_publish_count (cfg : IcmpTracerConfig) (st : TracerState) :
    (publish_trace cfg st).length =
      match st.target_ttl, st.max_received_ttl with
      | some t, _ => t - cfg.first_ttl + 1
      | none, some m => min (m - cfg.first_ttl + 1) (cfg.max_ttl - cfg.first_ttl) + 1
      | none, none => 0 := by
  rcases h1 : st.target_ttl with _ | t <;> rcases h2 : st.max_received_ttl with _ | m <;>
    simp [publish_trace, TracerState.probes_take, round_size, h1, h2]

/-- Lemma: `send_request` either does nothing or performs exactly one `next_probe`. -/
lemma send_request_cases (cfg : IcmpTracerConfig) (st : TracerState) (now : Int) :
    send_request cfg st now = (none, st) ∨
    send_request cfg st now = (some (st.next_probe now).1, (st.next_probe now).2) := by
  unfold send_request
  cases htt : st.target_ttl <;> simp only [htt] <;> split <;> simp

/-- C3: `send_request` hands a probe to the channel exactly when the target
has not been found, `ttl ≤ max_ttl`, and either `target_ttl = some t` with
`ttl ≤ t`, or `target_ttl = none` with
`ttl − max_received_ttl.unwrap_or(0) < max_inflight`; when any condition
fails no probe is sent and the state is unchanged, and when they all hold the
probe and state are those produced by `next_probe`. -/
theorem C3_send_request_iff (cfg : IcmpTracerConfig) (st : TracerState) (now : Int) :
    ((send_request cfg st now).1 ≠ none ↔
      (st.target_found = false ∧ st.ttl ≤ cfg.max_ttl ∧
        ((∃ t, st.target_ttl = some t ∧ st.ttl ≤ t) ∨
         (st.target_ttl = none ∧ st.ttl - st.max_received_ttl.getD 0 < cfg.max_inflight)))) ∧
    ((send_request cfg st now).1 = none → send_request cfg st now = (none, st)) ∧
    ((send_request cfg st now).1 ≠ none →
      send_request cfg st now = (some (st.next_probe now).1, (st.next_probe now).2)) := by
  refine ⟨?_, ?_, ?_⟩
  · cases hf : st.target_found with
    | true => simp [send_request, hf]
    | false =>
      cases htt : st.target_ttl with
      | none =>
        by_cases h2 : st.ttl ≤ cfg.max_ttl <;>
          by_cases h3 : st.ttl - st.max_received_ttl.getD 0 < cfg.max_inflight <;>
          simp [send_request, hf, htt, h2, h3]
      | some t =>
        by_cases h2 : st.ttl ≤ cfg.max_ttl <;>
          by_cases h3 : st.ttl ≤ t <;>
          simp [send_request, hf, htt, h2, h3]
  · intro h
    rcases send_request_cases cfg st now with he | he
    · exact he
    · rw [he] at h
      simp at h
  · intro h
    rcases send_request_cases cfg st now with he | he
    · rw [he] at h
      simp at h
    · exact he

/-- C4: `update_round` publishes and advances the round exactly when
`(elapsed > min_round_duration ∧ now − received_time > grace_duration ∧
target_found) ∨ elapsed > max_round_duration` with
`elapsed = now − round_start`; a `received_time` of `none` never satisfies the
grace clause, and a negative `duration_since` (clock regression) is treated as
zero duration. -/
theorem C4_update_round (cfg : IcmpTracerConfig) (st : TracerState) (now advTime : Int) :
    (((update_round cfg st now advTime).2.round = st.round + 1 ∧
      (update_round cfg st now advTime).1 = publish_trace cfg st) ↔
      ((durationSince now st.round_start > cfg.min_round_duration ∧
        (∃ rt, st.received_time = some rt ∧ durationSince now rt > cfg.grace_duration) ∧
        st.target_found = true) ∨
       durationSince now st.round_start > cfg.max_round_duration)) ∧
    (¬ ((durationSince now st.round_start > cfg.min_round_duration ∧
         (∃ rt, st.received_time = some rt ∧ durationSince now rt > cfg.grace_duration) ∧
         st.target_found = true) ∨
        durationSince now st.round_start > cfg.max_round_duration) →
      update_round cfg st now advTime = ([], st)) ∧
    (st.received_time = none → exceeds st.received_time now cfg.grace_duration = false) ∧
    (now ≤ st.round_start → durationSince now st.round_start = 0) := by
  have hb : roundComplete cfg st now = true ↔
      ((durationSince now st.round_start > cfg.min_round_duration ∧
        (∃ rt, st.received_time = some rt ∧ durationSince now rt > cfg.grace_duration) ∧
        st.target_found = true) ∨
       durationSince now st.round_start > cfg.max_round_duration) := by
    cases hr : st.received_time with
    | none => simp [roundComplete, exceeds, hr]
    | some rt => simp [roundComplete, exceeds, hr, and_assoc]
  refine ⟨?_, ?_, ?_, ?_⟩
  · cases hc : roundComplete cfg st now with
    | true =>
      simp only [update_round, hc, if_true]
      rw [← hb]
      simp [TracerState.advance_round, hc]
    | false =>
      rw [hc] at hb
      simp only [update_round, hc, Bool.false_eq_true, if_false]
      constructor
      · rintro ⟨h1, -⟩
        omega
      · intro h
        exact absurd (hb.mpr h) (by simp)
  · intro h
    have : roundComplete cfg st now = false := by
      cases hc : roundComplete cfg st now with
      | true => exact absurd (hb.mp hc) h
      | false => rfl
    simp [update_round, this]
  · intro h
    simp [exceeds, h]
  · intro h
    unfold durationSince
    omega

/-- C8: a response whose identifier differs from `trace_identifier`, or whose
sequence fails `in_round`, leaves the entire `TracerState` unchanged. -/
theorem C8_foreign_or_stale_ignored (cfg : IcmpTracerConfig) (st : TracerState)
    (resp : IcmpResponse)
    (h : cfg.trace_identifier ≠ resp.data.identifier ∨
         st.in_round resp.data.sequence = false) :
    recv_response cfg st (some resp) = st := by
  cases resp with
  | TimeExceeded d =>
    rcases h with h | h <;> simp_all [recv_response, IcmpResponse.data]
  | DestinationUnreachable d =>
    rcases h with h | h <;> simp_all [recv_response, IcmpResponse.data]
  | EchoReply d =>
    rcases h with h | h <;> simp_all [recv_response, IcmpResponse.data]

/-- A concrete configuration used by the witnesses: identifier 7, first ttl 1,
max ttl 30, grace 50, max inflight 24, min round 100, max round 1000. -/
def cfg0 : IcmpTracerConfig :=
  { target_addr := 9, trace_identifier := 7, first_ttl := 1, max_ttl := 30,
    grace_duration := 50, max_inflight := 24, read_timeout := 10,
    min_round_duration := 100, max_round_duration := 1000, packet_size := 64,
    payload_pattern := 0 }

/-- C8 witness: a `TimeExceeded` carrying identifier 8 (the tracer uses 7) is
discarded without touching the fresh state. -/
theorem C8_witness :
    recv_response cfg0 (TracerState.new 1 0)
      (some (.TimeExceeded ⟨33000, 8, 11, 2⟩)) = TracerState.new 1 0 :=
  C8_foreign_or_stale_ignored cfg0 (TracerState.new 1 0)
    (.TimeExceeded ⟨33000, 8, 11, 2⟩) (Or.inl (by decide))

/-- C3 witness: in the fresh state all three send conditions hold, so
`send_request` performs exactly one `next_probe`. -/
theorem C3_witness :
    send_request cfg0 (TracerState.new 1 0) 1 =
      (some ((TracerState.new 1 0).next_probe 1).1,
       ((TracerState.new 1 0).next_probe 1).2) :=
  (C3_send_request_iff cfg0 (TracerState.new 1 0) 1).2.2 (by decide)

/-- C4 witness: with the fresh state and `now = 2000` the elapsed duration
exceeds `max_round_duration = 1000`, so `update_round` publishes and
advances. -/
theorem C4_witness :
    update_round cfg0 (TracerState.new 1 0) 2000 2000 =
      (publish_trace cfg0 (TracerState.new 1 0),
       (TracerState.new 1 0).advance_round cfg0.first_ttl 2000) := by
  have h := (C4_update_round cfg0 (TracerState.new 1 0) 2000 2000).1.mpr
    (Or.inr (by decide))
  have hc : roundComplete cfg0 (TracerState.new 1 0) 2000 = true := by decide
  simp [update_round, hc]

/-- Fold `update_probe` with `found := true` over a list of sequences, passing
for each sequence the stored probe given by `probeOf`. -/
def run_found (probeOf : Nat → Probe) (r : Int) (st : TracerState) (l : List Nat) :
    TracerState :=
  l.foldl (fun s sequence => s.update_probe sequence (probeOf sequence) r true) st

/-- A found-update on a state whose `target_ttl` is unset records the call's
sequence and the probe's ttl. -/
lemma update_probe_target_none (st : TracerState) (s : Nat) (p : Probe) (r : Int)
    (h : st.target_ttl = none) :
    (st.update_probe s p r true).target_seq = some s ∧
    (st.update_probe s p r true).target_ttl = some p.ttl := by
  simp [TracerState.update_probe, h]

/-- A found-update on a state whose target is set keeps the data of the
smaller sequence. -/
lemma update_probe_target_some (st : TracerState) (s : Nat) (p : Probe) (r : Int)
    (m t : Nat) (hseq : st.target_seq = some m) (httl : st.target_ttl = some t) :
    (st.update_probe s p r true).target_seq = some (if s < m then s else m) ∧
    (st.update_probe s p r true).target_ttl = some (if s < m then p.ttl else t) := by
  by_cases hs : s < m <;> simp [TracerState.update_probe, hseq, httl, hs]

lemma foldl_min_le_init (l : List Nat) (a : Nat) : l.foldl min a ≤ a := by
  induction l generalizing a with
  | nil => simp
  | cons x xs ih =>
    simpa using le_trans (ih (min a x)) (min_le_left a x)

lemma foldl_min_le_mem (l : List Nat) (a : Nat) : ∀ x ∈ l, l.foldl min a ≤ x := by
  induction l generalizing a with
  | nil => simp
  | cons y ys ih =>
    intro x hx
    rcases List.mem_cons.mp hx with rfl | hx
    · exact le_trans (foldl_min_le_init ys (min a x)) (min_le_right a x)
    · exact ih (min a y) x hx

lemma foldl_min_mem (l : List Nat) (a : Nat) : l.foldl min a = a ∨ l.foldl min a ∈ l := by
  induction l generalizing a with
  | nil => simp
  | cons y ys ih =>
    simp only [List.foldl_cons]
    rcases ih (min a y) with h | h
    · rcases min_choice a y with hm | hm
      · exact Or.inl (h.trans hm)
      · exact Or.inr (by simp [h.trans hm])
    · exact Or.inr (List.mem_cons_of_mem y h)

/-- Folding found-updates starting from a state whose recorded target has
sequence `m` and the matching probe ttl keeps the running minimum. -/
lemma run_found_from_some (probeOf : Nat → Probe) (r : Int) (l : List Nat) :
    ∀ (st : TracerState) (m : Nat), st.target_seq = some m →
      st.target_ttl = some (probeOf m).ttl →
      (run_found probeOf r st l).target_seq = some (l.foldl min m) ∧
      (run_found probeOf r st l).target_ttl = some (probeOf (l.foldl min m)).ttl := by
  induction l with
  | nil => exact fun st m h1 h2 => ⟨h1, h2⟩
  | cons s rest ih =>
    intro st m h1 h2
    have hu := update_probe_target_some st s (probeOf s) r m (probeOf m).ttl h1 h2
    have hmin : (if s < m then s else m) = min m s := by
      rcases Nat.lt_or_ge s m with h | h
      · rw [if_pos h, Nat.min_eq_right h.le]
      · rw [if_neg (not_lt.mpr h), Nat.min_eq_left h]
    have httl : (if s < m then (probeOf s).ttl else (probeOf m).ttl) =
        (probeOf (min m s)).ttl := by
      rcases Nat.lt_or_ge s m with h | h
      · rw [if_pos h, Nat.min_eq_right h.le]
      · rw [if_neg (not_lt.mpr h), Nat.min_eq_left h]
    have hrec := ih (st.update_probe s (probeOf s) r true) (min m s)
      (by rw [hu.1, hmin]) (by rw [hu.2, httl])
    simpa [run_found] using hrec

/-- C1: starting from a state in which no target is recorded, after any
nonempty sequence of `update_probe` calls with `found = true` (each passing
the stored probe and its sequence), `target_seq` is the smallest sequence
among those calls and `target_ttl` is the ttl of that sequence's probe — in
particular for calls arriving out of sequence order. -/
theorem C1_target_ttl_min_sequence (probeOf : Nat → Probe) (r : Int)
    (st : TracerState) (l : List Nat) (h0 : st.target_ttl = none) (hne : l ≠ []) :
    ∃ m, m ∈ l ∧ (∀ x ∈ l, m ≤ x) ∧
      (run_found probeOf r st l).target_seq = some m ∧
      (run_found probeOf r st l).target_ttl = some (probeOf m).ttl := by
  cases l with
  | nil => exact absurd rfl hne
  | cons s rest =>
    have hu := update_probe_target_none st s (probeOf s) r h0
    have hrun := run_found_from_some probeOf r rest
      (st.update_probe s (probeOf s) r true) s hu.1 hu.2
    refine ⟨rest.foldl min s, ?_, ?_, ?_, ?_⟩
    · rcases foldl_min_mem rest s with h | h
      · simp [h]
      · exact List.mem_cons_of_mem s h
    · intro x hx
      rcases List.mem_cons.mp hx with rfl | hx
      · exact foldl_min_le_init rest x
      · exact foldl_min_le_mem rest s x hx
    · simpa [run_found] using hrun.1
    · simpa [run_found] using hrun.2

/-- The witness probe table: the probe at sequence `s` carries ttl
`s − 32999` (so 33001 ↦ 2, 33002 ↦ 3). -/
def probeOfW (s : Nat) : Probe := Probe.new s (s - 32999) 0 0

/-- C1 witness (scenario S2): echo replies arrive for sequence 33002 first and
then 33001; the recorded target is the smaller sequence 33001 and its ttl. -/
theorem C1_witness :
    ∃ m, m ∈ [33002, 33001] ∧ (∀ x ∈ [33002, 33001], m ≤ x) ∧
      (run_found probeOfW 5 (TracerState.new 1 0) [33002, 33001]).target_seq = some m ∧
      (run_found probeOfW 5 (TracerState.new 1 0) [33002, 33001]).target_ttl =
        some (probeOfW m).ttl :=
  C1_target_ttl_min_sequence probeOfW 5 (TracerState.new 1 0) [33002, 33001] rfl
    (by decide)

/-- The configuration of the C7 scenario: identifier 7, first ttl 1, max ttl
30, max inflight 24, min round 100, grace 50, max round 1000. -/
def cfg7 : IcmpTracerConfig :=
  { target_addr := 9, trace_identifier := 7, first_ttl := 1, max_ttl := 30,
    grace_duration := 50, max_inflight := 24, read_timeout := 10,
    min_round_duration := 100, max_round_duration := 1000, packet_size := 64,
    payload_pattern := 0 }

/-- A `TimeExceeded` response carrying the tracer's identifier 7, from hop
address 11. -/
def mkTimeExceeded (s : Nat) (t : Int) : IcmpResponse := .TimeExceeded ⟨s, 7, 11, t⟩

/-- An `EchoReply` response carrying the tracer's identifier 7, from the
target address 9. -/
def mkEchoReply (s : Nat) (t : Int) : IcmpResponse := .EchoReply ⟨s, 7, 9, t⟩

/-- Round 0 of the C7 scenario, all traffic honest: probes at sequences
33000–33004 (ttls 1–5) are sent, hops answer `TimeExceeded` for the first
four and the target answers `EchoReply` for ttl 5, and the round completes
through the grace clause at time 200 and advances. -/
def inputs7 : List LoopInput :=
  [⟨1, some (mkTimeExceeded 33000 2), 3, 3⟩,
   ⟨4, some (mkTimeExceeded 33001 5), 6, 6⟩,
   ⟨7, some (mkTimeExceeded 33002 8), 9, 9⟩,
   ⟨10, some (mkTimeExceeded 33003 11), 12, 12⟩,
   ⟨13, some (mkEchoReply 33004 14), 15, 15⟩,
   ⟨16, none, 200, 200⟩]

/-- The state of the C7 scenario inside round 1, after one probe of round 1
(sequence 33005, ttl 1) was sent at time 201 and nothing was received. -/
def st7 : TracerState :=
  recv_response cfg7 (send_request cfg7 (run_loop cfg7 (TracerState.new 1 0) inputs7) 201).2 none

set_option maxRecDepth 100000 in
/-- C7 fails on the code: in the reachable state `st7` (honest network
traffic only), the round completes at time 1300 through the
`max_round_duration` clause while `target_ttl = 5` is retained from round 0,
so `publish_trace` emits 5 probes of which the second is the never-written
default slot: its ttl is 0 and its round is 0 while `state.round = 1`, firing
both debug assertions. -/
theorem C7_assertion_violation :
    roundComplete cfg7 st7 1300 = true ∧
    st7.round = 1 ∧
    (publish_trace cfg7 st7).length = 5 ∧
    ((publish_trace cfg7 st7).getD 1 Probe.default).ttl = 0 ∧
    ((publish_trace cfg7 st7).getD 1 Probe.default).round = 0 := by
  decide

/-- The configuration of the C10 scenario: as `cfg7` but with
`max_inflight = 4`. -/
def cfg10 : IcmpTracerConfig :=
  { target_addr := 9, trace_identifier := 7, first_ttl := 1, max_ttl := 30,
    grace_duration := 50, max_inflight := 4, read_timeout := 10,
    min_round_duration := 100, max_round_duration := 1000, packet_size := 64,
    payload_pattern := 0 }

/-- The C10 scenario: round 0 sends ttls 1–3 (sequences 33000–33002) with no
replies and expires through `max_round_duration`; in round 1 one probe
(sequence 33003, ttl 1) is sent, then a response for sequence 33258 arrives —
it carries the tracer's identifier and passes `in_round` (33258 ≥ 33003), but
its buffer slot 33258 % 256 = 234 still holds round 0's ttl-3 probe. -/
def inputs10 : List LoopInput :=
  [⟨1, none, 3, 3⟩,
   ⟨4, none, 6, 6⟩,
   ⟨7, none, 9, 9⟩,
   ⟨10, none, 1500, 1500⟩,
   ⟨1501, some (mkTimeExceeded 33258 1502), 1503, 1503⟩]

/-- The final state of the C10 scenario. -/
def st10 : TracerState := run_loop cfg10 (TracerState.new 1 0) inputs10

set_option maxRecDepth 100000 in
/-- C10 fails on the code: the state `st10` is reachable with responses that
pass both the identifier and `in_round` filters, its `target_ttl` is `none`
and the other send conditions hold, yet
`max_received_ttl.unwrap_or(0) = 3 > 2 = state.ttl`, so the u8 subtraction in
`send_request` underflows there. -/
theorem C10_underflow :
    st10.target_ttl = none ∧
    st10.target_found = false ∧
    st10.ttl ≤ cfg10.max_ttl ∧
    st10.ttl = 2 ∧
    st10.max_received_ttl = some 3 ∧
    ¬ (st10.max_received_ttl.getD 0 ≤ st10.ttl) := by
  decide
